import Mathlib

/-!
Verification of the `Answer` component
(`src/app/frontend/src/components/Answer/Answer.tsx`) of
azure-search-openai-demo.

The component is shallowly embedded: its local React state
(`copied`, `feedbackState`, `isFeedbackDialogOpen`, `feedbackMessage`)
becomes a Lean structure, each event handler becomes a pure function from
state to state together with the list of `onFeedbackProvided` callback
invocations it performs, and user interaction is a step relation over
events.  The copy-text regular expression is embedded as a deterministic
matcher over character lists.
-/

/-- The `Feedback` enumeration from `../../api` used by the component. -/
inductive Feedback where
  | neutral
  | positive
  | negative
deriving DecidableEq, Repr

/-- One invocation of the `onFeedbackProvided` callback:
`onFeedbackProvided(feedback, message?)`. -/
structure FeedbackCall where
  feedback : Feedback
  message : Option String
deriving DecidableEq, Repr

/-- The component's local state:
`copied`, `feedbackState`, `isFeedbackDialogOpen`, `feedbackMessage`
(lines 51-54 of Answer.tsx). -/
structure AnswerState where
  copied : Bool
  feedbackState : Feedback
  isFeedbackDialogOpen : Bool
  feedbackMessage : String
deriving DecidableEq, Repr

/-- The initial state: `useState(false)`, `useState(Feedback.Neutral)`,
`useState(false)`, `useState("")`. -/
def initState : AnswerState :=
  { copied := false
    feedbackState := Feedback.neutral
    isFeedbackDialogOpen := false
    feedbackMessage := "" }

/-- `handleFeedback` (Answer.tsx lines 69-80).  `hasCallback` embeds whether
the optional prop `onFeedbackProvided` was supplied; the returned list
records the callback invocations performed by the handler. -/
def handleFeedback (hasCallback : Bool) (feedback : Feedback) (s : AnswerState) :
    AnswerState × List FeedbackCall :=
  if hasCallback = false then (s, [])
  else if feedback = Feedback.negative then
    ({ s with feedbackState := feedback, isFeedbackDialogOpen := true }, [])
  else
    let newState := if s.feedbackState = feedback then Feedback.neutral else feedback
    ({ s with feedbackState := newState }, [⟨newState, none⟩])

/-- `handleFeedbackSubmit` (Answer.tsx lines 82-88): notify the caller with
`(Negative, feedbackMessage)` when the callback exists, close the dialog,
clear the message. -/
def handleFeedbackSubmit (hasCallback : Bool) (s : AnswerState) :
    AnswerState × List FeedbackCall :=
  ({ s with isFeedbackDialogOpen := false, feedbackMessage := "" },
   if hasCallback = true then [⟨Feedback.negative, some s.feedbackMessage⟩] else [])

/-- The cancel button's `onClick` (line 207) and the dialog's `onDismiss`
(line 184) both run `setIsFeedbackDialogOpen(false)` and nothing else. -/
def handleFeedbackCancel (s : AnswerState) : AnswerState × List FeedbackCall :=
  ({ s with isFeedbackDialogOpen := false }, [])

/-- The feedback `TextField` `onChange` (line 195):
`setFeedbackMessage(newValue || "")`. -/
def handleFeedbackMessageChange (newValue : Option String) (s : AnswerState) :
    AnswerState :=
  { s with feedbackMessage := newValue.getD "" }

/-- JavaScript `String.prototype.trim`: remove whitespace from both ends
(embedded over the character list; `Char.isWhitespace` covers the ASCII
whitespace of the messages this component handles). -/
def jsTrim (s : String) : String :=
  ⟨((s.data.dropWhile Char.isWhitespace).reverse.dropWhile Char.isWhitespace).reverse⟩

/-- The submit `IconButton`'s `disabled` prop (line 203):
`!feedbackMessage.trim()`, i.e. disabled exactly when the trimmed message
is empty. -/
def submitDisabled (s : AnswerState) : Bool :=
  jsTrim s.feedbackMessage = ""

/-- The dislike button's rendered colour (line 133):
`feedbackState === Feedback.Negative ? "darkred" : "black"`. -/
def dislikeColor (s : AnswerState) : String :=
  if s.feedbackState = Feedback.negative then "darkred" else "black"

/-- The like button's rendered colour (line 126):
`feedbackState === Feedback.Positive ? "darkgreen" : "black"`. -/
def likeColor (s : AnswerState) : String :=
  if s.feedbackState = Feedback.positive then "darkgreen" else "black"

/-- Outcome of one `handleCopy` invocation (Answer.tsx lines 56-67) once the
clipboard promise settles.  `timer` records the scheduled
`setTimeout(() => setCopied(false), 2000)` as (delay in ms, value the timer
writes to `copied`); `loggedError` records the `console.error` call;
`userVisibleError` is false everywhere because the component renders no
error UI. -/
structure CopyOutcome where
  copied : Bool
  timer : Option (Nat × Bool)
  loggedError : Bool
  userVisibleError : Bool
deriving DecidableEq, Repr

/-- `handleCopy`'s promise continuations (lines 60-66): on fulfilment
`setCopied(true)` and schedule `setCopied(false)` after 2000 ms; on
rejection only `console.error`, leaving `copied` at its prior value. -/
def handleCopyEffect (success : Bool) (copiedBefore : Bool) : CopyOutcome :=
  if success = true then
    { copied := true, timer := some (2000, false),
      loggedError := false, userVisibleError := false }
  else
    { copied := copiedBefore, timer := none,
      loggedError := true, userVisibleError := false }

/-- User-interaction events on the component.  `clickCopy` carries whether
the asynchronous clipboard write succeeds; `copyTimerFires` is the 2000 ms
timeout firing. -/
inductive Event where
  | clickPositive
  | clickNegative
  | editMessage (newValue : Option String)
  | clickSubmit
  | clickCancel
  | dismissDialog
  | clickCopy (success : Bool)
  | copyTimerFires
deriving DecidableEq, Repr

/-- One interaction step.  The feedback `Dialog` is modal (a Fluent UI
`Dialog` renders an overlay), so while it is open the only available
interactions are editing the message, submit (only when not disabled,
line 203), cancel, and dismiss; timers may still fire.  While it is closed
the header buttons and the copy action are available.  `none` means the
event cannot occur in that state. -/
def step (hasCallback : Bool) (s : AnswerState) (e : Event) :
    Option (AnswerState × List FeedbackCall) :=
  match s.isFeedbackDialogOpen, e with
  | true, Event.editMessage m => some (handleFeedbackMessageChange m s, [])
  | true, Event.clickSubmit =>
      if submitDisabled s = true then none
      else some (handleFeedbackSubmit hasCallback s)
  | true, Event.clickCancel => some (handleFeedbackCancel s)
  | true, Event.dismissDialog => some (handleFeedbackCancel s)
  | true, Event.copyTimerFires => some ({ s with copied := false }, [])
  | true, _ => none
  | false, Event.clickPositive => some (handleFeedback hasCallback Feedback.positive s)
  | false, Event.clickNegative => some (handleFeedback hasCallback Feedback.negative s)
  | false, Event.clickCopy success =>
      some ((if success = true then { s with copied := true } else s), [])
  | false, Event.copyTimerFires => some ({ s with copied := false }, [])
  | false, _ => none

/-- States reachable from the initial state by user interaction, for a fixed
presence/absence of the `onFeedbackProvided` prop. -/
inductive Reachable (hasCallback : Bool) : AnswerState → Prop where
  | init : Reachable hasCallback initState
  | step (s : AnswerState) (e : Event) (s' : AnswerState) (calls : List FeedbackCall) :
      Reachable hasCallback s → step hasCallback s e = some (s', calls) →
      Reachable hasCallback s'

/-! ### The copy-to-clipboard text derivation

`handleCopy` (line 58) computes
`sanitizedAnswerHtml.replace(/<a [^>]*><sup>\d+<\/sup><\/a>|<[^>]+>/g, "")`.
Both alternatives of the regular expression are deterministic (every
repeated class excludes the character that must follow it), so the
JavaScript global replace is embedded as a left-to-right scan that at each
position tries the first alternative, then the second, and on a match skips
the matched characters. -/

/-- Consume the literal character sequence `pat` from the front of `l`,
returning the remainder, or `none` when `l` does not start with `pat`. -/
def dropLit : List Char → List Char → Option (List Char)
  | [], l => some l
  | _ :: _, [] => none
  | p :: ps, c :: cs => if p = c then dropLit ps cs else none

/-- Consume `\d+` (one or more digits, greedy) from the front of `l`. -/
def dropDigits1 (l : List Char) : Option (List Char) :=
  match l with
  | [] => none
  | c :: cs =>
    if c.isDigit = true then some ((c :: cs).dropWhile Char.isDigit) else none

/-- Match the first alternative `<a [^>]*><sup>\d+<\/sup><\/a>` at the front
of `l`, returning the remainder after the match. -/
def tryCitationMarkup (l : List Char) : Option (List Char) := do
  let r1 ← dropLit "<a ".data l
  let r2 ← dropLit ">".data (r1.dropWhile (fun c => c ≠ '>'))
  let r3 ← dropLit "<sup>".data r2
  let r4 ← dropDigits1 r3
  dropLit "</sup></a>".data r4

/-- Match the second alternative `<[^>]+>` at the front of `l`, returning
the remainder after the match. -/
def tryTag (l : List Char) : Option (List Char) :=
  match l with
  | '<' :: c :: cs =>
    if c = '>' then none
    else dropLit ">".data ((c :: cs).dropWhile (fun x => x ≠ '>'))
  | _ => none

/-- The global replace scan.  Fuel bounds the number of steps; every step
consumes at least one character, so fuel equal to the input length is
exact. -/
def stripGo : Nat → List Char → List Char
  | 0, l => l
  | _ + 1, [] => []
  | fuel + 1, c :: cs =>
    match tryCitationMarkup (c :: cs) with
    | some rest => stripGo fuel rest
    | none =>
      match tryTag (c :: cs) with
      | some rest => stripGo fuel rest
      | none => c :: stripGo fuel cs

/-- `textToCopy` (line 58): remove every citation anchor+superscript group
and every remaining HTML tag from the sanitized answer HTML in one
regular-expression pass. -/
def stripCitationsAndTags (sanitizedAnswerHtml : String) : String :=
  ⟨stripGo sanitizedAnswerHtml.data.length sanitizedAnswerHtml.data⟩

/-! ### Citation links and follow-up question chips -/

/-- One rendered citation link (lines 155-162): its visible label
`` `${++i}. ${x}` ``, its `title` attribute `x`, and the argument
`getCitationFilePath(x)` passed to `onCitationClicked` when clicked. -/
structure CitationLink where
  label : String
  title : String
  clickedPath : String
deriving DecidableEq, Repr

/-- The body of `parsedAnswer.citations.map((x, i) => ...)` unrolled with an
explicit running index: the element at 0-based index `i` is labelled
`i+1. x` (the source pre-increments `i` inside the template literal) and
clicking it passes `resolve x` to the handler, where `resolve` embeds the
external `getCitationFilePath`. -/
def renderCitationsFrom (resolve : String → String) :
    Nat → List String → List CitationLink
  | _, [] => []
  | i, x :: xs =>
      ⟨toString (i + 1) ++ ". " ++ x, x, resolve x⟩ ::
        renderCitationsFrom resolve (i + 1) xs

/-- The rendered citation links, in citation order (line 155). -/
def renderCitations (resolve : String → String) (citations : List String) :
    List CitationLink :=
  renderCitationsFrom resolve 0 citations

/-- The citation `Stack.Item` (line 151) renders only when
`!!parsedAnswer.citations.length`. -/
def citationBlock (resolve : String → String) (citations : List String) :
    Option (List CitationLink) :=
  if citations.length ≠ 0 then some (renderCitations resolve citations) else none

/-- One rendered follow-up question chip (lines 171-177): its visible label
`` `${x}` `` and the argument passed to `onFollowupQuestionClicked`, both
the literal question text. -/
structure FollowupChip where
  label : String
  clickArg : String
deriving DecidableEq, Repr

/-- `followupQuestions.map(...)` (line 171). -/
def renderFollowups (questions : List String) : List FollowupChip :=
  questions.map (fun x => ⟨x, x⟩)

/-- The follow-up `Stack.Item` (line 167) renders only when
`!!followupQuestions?.length && showFollowupQuestions &&
onFollowupQuestionClicked`: `questions = none` embeds an absent
`answer.context?.followup_questions`, `hasHandler` whether the optional
click handler prop was supplied. -/
def followupBlock (questions : Option (List String))
    (showFollowupQuestions : Bool) (hasHandler : Bool) :
    Option (List FollowupChip) :=
  if (questions.getD []).length ≠ 0 ∧ showFollowupQuestions = true ∧ hasHandler = true
  then some (renderFollowups (questions.getD []))
  else none

/-! ### Claims -/

/-- Claim C1, counterexample: starting from the Neutral feedback state,
selecting Negative (with a callback supplied) opens the dialog but changes
the rendered feedback state to Negative at once — the dislike button turns
dark red before any submit — so the rendered state does not equal the
state from before the selection. -/
theorem C1_counterexample :
    (handleFeedback true Feedback.negative initState).1.isFeedbackDialogOpen = true ∧
    ¬ ((handleFeedback true Feedback.negative initState).1.feedbackState
        = initState.feedbackState) ∧
    ¬ (dislikeColor (handleFeedback true Feedback.negative initState).1
        = dislikeColor initState) := by
  decide

/-- Claim C1, amended: selecting Negative with a callback supplied opens the
modal dialog, sets the visible feedback state to Negative immediately
(before any submit), and invokes no callback before the dialog is
submitted. -/
theorem C1_amended_negative_selection (s : AnswerState) :
    (handleFeedback true Feedback.negative s).1.isFeedbackDialogOpen = true ∧
    (handleFeedback true Feedback.negative s).1.feedbackState = Feedback.negative ∧
    (handleFeedback true Feedback.negative s).2 = [] := by
  refine ⟨rfl, rfl, rfl⟩

/-- Claim C2, counterexample: with prior feedback state Neutral, selecting
Negative and then cancelling leaves the feedback state Negative, not the
prior Neutral (the callback is indeed never invoked). -/
theorem C2_counterexample :
    (handleFeedback true Feedback.negative initState).2 = [] ∧
    (handleFeedbackCancel (handleFeedback true Feedback.negative initState).1).2 = [] ∧
    ¬ ((handleFeedbackCancel (handleFeedback true Feedback.negative initState).1).1.feedbackState
        = initState.feedbackState) := by
  decide

/-- Claim C2, amended: for every prior state, selecting Negative and then
cancelling invokes no callback and closes the dialog, but the feedback
state remains Negative as set by the selection rather than reverting to
the prior state. -/
theorem C2_amended_cancel (s : AnswerState) :
    (handleFeedback true Feedback.negative s).2 = [] ∧
    (handleFeedbackCancel (handleFeedback true Feedback.negative s).1).2 = [] ∧
    (handleFeedbackCancel (handleFeedback true Feedback.negative s).1).1.isFeedbackDialogOpen
      = false ∧
    (handleFeedbackCancel (handleFeedback true Feedback.negative s).1).1.feedbackState
      = Feedback.negative := by
  refine ⟨rfl, rfl, rfl, rfl⟩

/-- Claim C3: from a state whose feedback is Neutral, selecting Positive
twice returns the feedback state to Neutral and performs exactly two
callback invocations, the first with Positive and the second with
Neutral. -/
theorem C3_positive_toggle (s : AnswerState) (h : s.feedbackState = Feedback.neutral) :
    (handleFeedback true Feedback.positive
        (handleFeedback true Feedback.positive s).1).1.feedbackState
      = Feedback.neutral ∧
    (handleFeedback true Feedback.positive s).2 ++
        (handleFeedback true Feedback.positive
          (handleFeedback true Feedback.positive s).1).2
      = [⟨Feedback.positive, none⟩, ⟨Feedback.neutral, none⟩] := by
  simp [handleFeedback, h]

/-- Witness for C3 at the initial state. -/
theorem C3_positive_toggle_witness :
    (handleFeedback true Feedback.positive
        (handleFeedback true Feedback.positive initState).1).1.feedbackState
      = Feedback.neutral ∧
    (handleFeedback true Feedback.positive initState).2 ++
        (handleFeedback true Feedback.positive
          (handleFeedback true Feedback.positive initState).1).2
      = [⟨Feedback.positive, none⟩, ⟨Feedback.neutral, none⟩] :=
  C3_positive_toggle initState rfl

/-- Claim C4: selecting Negative invokes no callback; submitting the dialog
in a state whose message is `m` performs exactly one callback invocation,
with Negative and message `m`, closes the dialog, and clears the message
field. -/
theorem C4_submit_contract (s : AnswerState) :
    (handleFeedback true Feedback.negative s).2 = [] ∧
    (handleFeedbackSubmit true s).2 = [⟨Feedback.negative, some s.feedbackMessage⟩] ∧
    (handleFeedbackSubmit true s).1.isFeedbackDialogOpen = false ∧
    (handleFeedbackSubmit true s).1.feedbackMessage = "" := by
  refine ⟨rfl, rfl, rfl, rfl⟩

/-- Claim C6: the copied text is derived from the sanitized HTML by the
single regular-expression replacement removing citation
anchor+superscript markup and all remaining tags; on the input
`<a href=x><sup>1</sup></a>Hello <b>world</b>` it yields exactly
`Hello world`. -/
theorem C6_copy_strips_markup :
    stripCitationsAndTags "<a href=x><sup>1</sup></a>Hello <b>world</b>"
      = "Hello world" := by
  rfl

/-- Claim C8: the follow-up block renders iff the question list is
non-empty, the show flag is true, and a handler was supplied; and when
rendered, every chip carries the literal question text as both label and
click argument. -/
theorem C8_followup_conditions (questions : Option (List String))
    (showFlag hasHandler : Bool) :
    ((followupBlock questions showFlag hasHandler).isSome = true ↔
      (questions.getD []).length ≠ 0 ∧ showFlag = true ∧ hasHandler = true) ∧
    (∀ chips, followupBlock questions showFlag hasHandler = some chips →
      chips = (questions.getD []).map (fun x => ⟨x, x⟩)) := by
  constructor
  · simp [followupBlock]
  · intro chips hchips
    unfold followupBlock at hchips
    split at hchips
    · simpa [renderFollowups] using hchips.symm
    · exact absurd hchips (by simp)

/-- Witness for C8: with questions `["q1"]`, flag set and a handler
supplied, the block renders a single chip whose click argument is the
literal question text. -/
theorem C8_followup_conditions_witness :
    [FollowupChip.mk "q1" "q1"]
      = ((some [ "q1" ] : Option (List String)).getD []).map (fun x => ⟨x, x⟩) :=
  (C8_followup_conditions (some ["q1"]) true true).2 [⟨"q1", "q1"⟩] rfl

/-- Claim C9: the clipboard write is the only failure path: on success the
copied indicator becomes true with an auto-clear timer of 2000 ms and no
logging; on rejection the error is only logged, no user-visible error is
produced, and the copied indicator keeps its prior value (so it is never
set and remains false). -/
theorem C9_copy_error_handling (success copiedBefore : Bool) :
    (handleCopyEffect success copiedBefore).userVisibleError = false ∧
    (success = true →
      (handleCopyEffect success copiedBefore).copied = true ∧
      (handleCopyEffect success copiedBefore).timer = some (2000, false) ∧
      (handleCopyEffect success copiedBefore).loggedError = false) ∧
    (success = false →
      (handleCopyEffect success copiedBefore).copied = copiedBefore ∧
      (handleCopyEffect success copiedBefore).timer = none ∧
      (handleCopyEffect success copiedBefore).loggedError = true) := by
  cases success <;> simp [handleCopyEffect]

/-- Witness for C9: a failing copy starting from a cleared indicator leaves
the indicator false, schedules nothing, and logs the error. -/
theorem C9_copy_error_handling_witness :
    (handleCopyEffect false false).copied = false ∧
    (handleCopyEffect false false).timer = none ∧
    (handleCopyEffect false false).loggedError = true :=
  (C9_copy_error_handling false false).2.2 rfl

/-- Every interaction step preserves the dialog invariant: if the dialog is
open then the pending feedback state is Negative. -/
theorem step_preserves_dialog_invariant (hasCallback : Bool) (s : AnswerState)
    (e : Event) (s' : AnswerState) (calls : List FeedbackCall)
    (h : step hasCallback s e = some (s', calls))
    (inv : s.isFeedbackDialogOpen = true → s.feedbackState = Feedback.negative) :
    s'.isFeedbackDialogOpen = true → s'.feedbackState = Feedback.negative := by
  cases hs : s.isFeedbackDialogOpen <;> cases e <;> simp only [step, hs] at h
  case false.clickPositive =>
    have h1 : _ = s' := congrArg Prod.fst (Option.some.inj h)
    subst h1
    cases hasCallback <;> simp [handleFeedback, hs]
  case false.clickNegative =>
    have h1 : _ = s' := congrArg Prod.fst (Option.some.inj h)
    subst h1
    cases hasCallback <;> simp [handleFeedback, hs]
  case false.clickCopy success =>
    have h1 : _ = s' := congrArg Prod.fst (Option.some.inj h)
    subst h1
    cases success <;> simp [hs]
  case false.copyTimerFires =>
    have h1 : _ = s' := congrArg Prod.fst (Option.some.inj h)
    subst h1
    simp [hs]
  case true.editMessage m =>
    have h1 : _ = s' := congrArg Prod.fst (Option.some.inj h)
    subst h1
    intro _
    exact inv hs
  case true.clickSubmit =>
    split at h
    · exact Option.noConfusion h
    · have h1 : _ = s' := congrArg Prod.fst (Option.some.inj h)
      subst h1
      simp [handleFeedbackSubmit]
  case true.clickCancel =>
    have h1 : _ = s' := congrArg Prod.fst (Option.some.inj h)
    subst h1
    simp [handleFeedbackCancel]
  case true.dismissDialog =>
    have h1 : _ = s' := congrArg Prod.fst (Option.some.inj h)
    subst h1
    simp [handleFeedbackCancel]
  case true.copyTimerFires =>
    have h1 : _ = s' := congrArg Prod.fst (Option.some.inj h)
    subst h1
    intro _
    exact inv hs
  all_goals exact Option.noConfusion h

/-- Claim C5: in every reachable state, the feedback dialog is open only if
the pending feedback state is Negative — no sequence of user interactions
reaches a state with the dialog open while the feedback state is Neutral
or Positive. -/
theorem C5_dialog_invariant (hasCallback : Bool) (s : AnswerState)
    (h : Reachable hasCallback s) :
    s.isFeedbackDialogOpen = true → s.feedbackState = Feedback.negative := by
  induction h with
  | init => intro hopen; exact absurd hopen (by simp [initState])
  | step s e sNext calls _ hstep ih =>
      exact step_preserves_dialog_invariant hasCallback s e sNext calls hstep ih

/-- Witness for C5: the state reached by clicking dislike from the initial
state has the dialog open and feedback state Negative. -/
theorem C5_dialog_invariant_witness :
    AnswerState.feedbackState
      { copied := false, feedbackState := Feedback.negative,
        isFeedbackDialogOpen := true, feedbackMessage := "" } = Feedback.negative :=
  C5_dialog_invariant true
    { copied := false, feedbackState := Feedback.negative,
      isFeedbackDialogOpen := true, feedbackMessage := "" }
    (Reachable.step initState Event.clickNegative
      { copied := false, feedbackState := Feedback.negative,
        isFeedbackDialogOpen := true, feedbackMessage := "" }
      [] Reachable.init rfl)
    rfl

/-- The rendered citation list has one link per citation, for any starting
index. -/
theorem renderCitationsFrom_length (resolve : String → String) (cs : List String) :
    ∀ k, (renderCitationsFrom resolve k cs).length = cs.length := by
  induction cs with
  | nil => intro k; rfl
  | cons x xs ih => intro k; simp [renderCitationsFrom, ih]

/-- The link at 0-based position `i` of the list rendered from starting
index `k` is labelled `k+i+1` and resolves the `i`-th citation. -/
theorem renderCitationsFrom_get (resolve : String → String) (cs : List String) :
    ∀ k i x, cs.get? i = some x →
      (renderCitationsFrom resolve k cs).get? i =
        some ⟨toString (k + i + 1) ++ ". " ++ x, x, resolve x⟩ := by
  induction cs with
  | nil => intro k i x hx; cases i <;> exact Option.noConfusion hx
  | cons y ys ih =>
    intro k i x hx
    cases i with
    | zero =>
      have hy : y = x := Option.some.inj hx
      subst hy
      rfl
    | succ i =>
      have h2 := ih (k + 1) i x hx
      have e : k + 1 + i + 1 = k + (i + 1) + 1 := by omega
      rw [e] at h2
      simpa [renderCitationsFrom] using h2

/-- Claim C7: for a parsed citation list with N entries, exactly N citation
links render (none when N = 0, since the block is absent), labelled
`1..N` in citation order, and the `i`-th link's click argument is the
path resolved from the `i`-th citation by the external path-resolution
function. -/
theorem C7_citation_links (resolve : String → String) (citations : List String) :
    ((citationBlock resolve citations).getD []).length = citations.length ∧
    ∀ i x, citations.get? i = some x →
      ((citationBlock resolve citations).getD []).get? i =
        some ⟨toString (i + 1) ++ ". " ++ x, x, resolve x⟩ := by
  cases citations with
  | nil =>
    refine ⟨rfl, ?_⟩
    intro i x hx
    cases i <;> exact Option.noConfusion hx
  | cons y ys =>
    have hblock : citationBlock resolve (y :: ys)
        = some (renderCitations resolve (y :: ys)) := by
      simp [citationBlock]
    rw [hblock]
    refine ⟨renderCitationsFrom_length resolve (y :: ys) 0, ?_⟩
    intro i x hx
    have h2 := renderCitationsFrom_get resolve (y :: ys) 0 i x hx
    simpa [renderCitations, Nat.zero_add] using h2

/-- Witness for C7: with two citations and a concrete resolver, the second
link is labelled `2. b.pdf` and clicks through to the resolved path. -/
theorem C7_citation_links_witness :
    ((citationBlock (fun x => String.append "/content/" x) ["a.pdf", "b.pdf"]).getD []).get? 1
      = some ⟨"2. b.pdf", "b.pdf", "/content/b.pdf"⟩ :=
  (C7_citation_links (fun x => String.append "/content/" x) ["a.pdf", "b.pdf"]).2
    1 "b.pdf" rfl

/-- Claim C10: the submit button is disabled exactly when the trimmed
feedback message is empty, and consequently a submit interaction (which a
disabled button cannot produce) only ever performs callback invocations
whose message has a non-empty trim — no blank feedback is deliverable via
submit. -/
theorem C10_no_blank_submit (hasCallback : Bool) (s : AnswerState)
    (s' : AnswerState) (calls : List FeedbackCall)
    (h : step hasCallback s Event.clickSubmit = some (s', calls)) :
    (submitDisabled s = true ↔ jsTrim s.feedbackMessage = "") ∧
    ∀ c ∈ calls, ∃ m, c.message = some m ∧ jsTrim m ≠ "" := by
  refine ⟨by simp [submitDisabled], ?_⟩
  cases hs : s.isFeedbackDialogOpen <;> simp only [step, hs] at h
  · exact Option.noConfusion h
  · split at h
    · exact Option.noConfusion h
    · next hguard =>
      have h2 : _ = calls := congrArg Prod.snd (Option.some.inj h)
      subst h2
      intro c hc
      cases hasCallback with
      | false => exact absurd hc (by simp [handleFeedbackSubmit])
      | true =>
        have hcc : c = ⟨Feedback.negative, some s.feedbackMessage⟩ := by
          simpa [handleFeedbackSubmit] using hc
        subst hcc
        refine ⟨s.feedbackMessage, rfl, ?_⟩
        simpa [submitDisabled] using hguard

/-- Witness for C10: submitting with message `too slow` delivers a message
whose trim is non-empty. -/
theorem C10_no_blank_submit_witness :
    ∃ m, (FeedbackCall.mk Feedback.negative (some "too slow")).message = some m ∧
      jsTrim m ≠ "" :=
  (C10_no_blank_submit true
      { copied := false, feedbackState := Feedback.negative,
        isFeedbackDialogOpen := true, feedbackMessage := "too slow" }
      { copied := false, feedbackState := Feedback.negative,
        isFeedbackDialogOpen := false, feedbackMessage := "" }
      [⟨Feedback.negative, some "too slow"⟩]
      rfl).2
    ⟨Feedback.negative, some "too slow"⟩ (by simp)
